import Mathlib

/-!
Verification development for the sx1276 LoRa/FSK radio driver
(src/drivers/sx1276/sx1276.c).

The driver is embedded shallowly: each C function relevant to a claim becomes a
pure Lean function from its inputs (device settings, the bytes it reads from
chip registers, its arguments) to its outputs (stored settings, the ordered
list of register writes, emitted events, timer cancellations).  Machine
integers are modelled as `Nat`/`Int` with explicit `&&& 0xFF` / `% 256` at the
points where the C code converts to `uint8_t`.  The C halt-forever branch on an
invalid bandwidth code is modelled with `Option` (`none` = the source's
`while (1) {}`).

Register addresses and bitmask constants come from the driver's headers
(include/sx1276_regs_lora.h, include/sx1276_regs_fsk.h, sx1276.h), which are
not part of the provided sources; they are modelled from the spec's register
map description with the chip's standard values and are marked
`Modelled from the spec:` below.  The two constants `RSSI_OFFSET_LF` and
`RSSI_OFFSET_HF` are defined in sx1276.c itself (lines 98-99).
-/

/-! ## Chip constants -/

/-- sx1276.c line 98: `#define RSSI_OFFSET_LF -164`. -/
def RSSI_OFFSET_LF : Int := -164

/-- sx1276.c line 99: `#define RSSI_OFFSET_HF -157`. -/
def RSSI_OFFSET_HF : Int := -157

/-- Modelled from the spec: `RF_MID_BAND_THRESH` is the "vendor-specified
frequency boundary selecting amplifier output stage and RSSI offset constants"
(spec glossary).  It is defined in the driver header sx1276.h, which is not
under src/; the chip's standard boundary of 525 MHz is used.  Every claim below
depends only on it being a fixed nonzero frequency, never on the exact value. -/
def RF_MID_BAND_THRESH : Nat := 525000000

/-- Modelled from the spec: modem variants (`modem ∈ {LoRa, FSK}` in the data
model).  The C enum `sx1276_radio_modems_t` lives in the missing header; the
declaration order used by the source's switch statements (FSK first) gives
FSK = 0, LoRa = 1.  A `Nat` keeps the C enum's property that a device field may
hold a value outside the declared constants (claim C10's `default` case). -/
def MODEM_FSK : Nat := 0

/-- Modelled from the spec: LoRa modem variant, see `MODEM_FSK`. -/
def MODEM_LORA : Nat := 1

/-- Modelled from the spec: radio states (`operatingState` in the data model).
The C enum `sx1276_radio_state_t` is in the missing header; declaration order
from the source's usage gives Idle = 0. -/
def RF_IDLE : Nat := 0

/-- Modelled from the spec: RX-running radio state, see `RF_IDLE`. -/
def RF_RX_RUNNING : Nat := 1

/-- Modelled from the spec: TX-running radio state, see `RF_IDLE`. -/
def RF_TX_RUNNING : Nat := 2

/-- Modelled from the spec: CAD radio state, see `RF_IDLE`. -/
def RF_CAD : Nat := 3

/-- Modelled from the spec: operating-mode bits of RegOpMode (chip register
map).  The mode field is the low 3 bits; `RF_OPMODE_MASK` is the AND-mask that
clears it. -/
def RF_OPMODE_MASK : Nat := 0xF8

/-- Modelled from the spec: Sleep operating mode (mode field value 0). -/
def RF_OPMODE_SLEEP : Nat := 0x00

/-- Modelled from the spec: Standby operating mode (mode field value 1). -/
def RF_OPMODE_STANDBY : Nat := 0x01

/-- Modelled from the spec: Transmitter operating mode (mode field value 3). -/
def RF_OPMODE_TRANSMITTER : Nat := 0x03

/-- Modelled from the spec: chip register addresses (8-bit register map, §6 of
the spec).  Values are the chip's standard addresses; the claims depend only on
distinctness of the addresses, never on the numbers themselves. -/
def REG_OPMODE : Nat := 0x01

/-- Modelled from the spec: frequency register, most significant byte. -/
def REG_FRFMSB : Nat := 0x06

/-- Modelled from the spec: frequency register, middle byte. -/
def REG_FRFMID : Nat := 0x07

/-- Modelled from the spec: frequency register, least significant byte. -/
def REG_FRFLSB : Nat := 0x08

/-- Modelled from the spec: PA configuration register. -/
def REG_PACONFIG : Nat := 0x09

/-- Modelled from the spec: PA ramp register. -/
def REG_PARAMP : Nat := 0x0A

/-- Modelled from the spec: PA DAC register. -/
def REG_PADAC : Nat := 0x4A

/-- Modelled from the spec: LoRa FIFO address pointer register. -/
def REG_LR_FIFOADDRPTR : Nat := 0x0D

/-- Modelled from the spec: LoRa IRQ flags register. -/
def REG_LR_IRQFLAGS : Nat := 0x12

/-- Modelled from the spec: LoRa received-byte-count register. -/
def REG_LR_RXNBBYTES : Nat := 0x13

/-- Modelled from the spec: LoRa packet SNR register. -/
def REG_LR_PKTSNRVALUE : Nat := 0x19

/-- Modelled from the spec: LoRa packet RSSI register. -/
def REG_LR_PKTRSSIVALUE : Nat := 0x1A

/-- Modelled from the spec: LoRa current RSSI register. -/
def REG_LR_RSSIVALUE : Nat := 0x1B

/-- Modelled from the spec: FSK RSSI register. -/
def REG_RSSIVALUE : Nat := 0x11

/-- Modelled from the spec: LoRa modem config 1 register. -/
def REG_LR_MODEMCONFIG1 : Nat := 0x1D

/-- Modelled from the spec: LoRa modem config 2 register. -/
def REG_LR_MODEMCONFIG2 : Nat := 0x1E

/-- Modelled from the spec: LoRa symbol-timeout LSB register. -/
def REG_LR_SYMBTIMEOUTLSB : Nat := 0x1F

/-- Modelled from the spec: LoRa preamble length MSB register. -/
def REG_LR_PREAMBLEMSB : Nat := 0x20

/-- Modelled from the spec: LoRa preamble length LSB register. -/
def REG_LR_PREAMBLELSB : Nat := 0x21

/-- Modelled from the spec: LoRa payload length register. -/
def REG_LR_PAYLOADLENGTH : Nat := 0x22

/-- Modelled from the spec: LoRa hop period register. -/
def REG_LR_HOPPERIOD : Nat := 0x24

/-- Modelled from the spec: LoRa modem config 3 register. -/
def REG_LR_MODEMCONFIG3 : Nat := 0x26

/-- Modelled from the spec: LoRa test register 0x2F (erratum 2.3). -/
def REG_LR_TEST2F : Nat := 0x2F

/-- Modelled from the spec: LoRa test register 0x30 (erratum 2.3). -/
def REG_LR_TEST30 : Nat := 0x30

/-- Modelled from the spec: LoRa detection-optimize register. -/
def REG_LR_DETECTOPTIMIZE : Nat := 0x31

/-- Modelled from the spec: LoRa test register 0x36 (erratum 2.1). -/
def REG_LR_TEST36 : Nat := 0x36

/-- Modelled from the spec: LoRa detection-threshold register. -/
def REG_LR_DETECTIONTHRESHOLD : Nat := 0x37

/-- Modelled from the spec: LoRa test register 0x3A (erratum 2.1). -/
def REG_LR_TEST3A : Nat := 0x3A

/-- Modelled from the spec: LoRa PLL hop register. -/
def REG_LR_PLLHOP : Nat := 0x44

/-- Modelled from the spec: LoRa IRQ flag bits.  Values are the chip's standard
bit assignment; the claims depend only on the bits being distinct single bits. -/
def RFLR_IRQFLAGS_CADDETECTED : Nat := 0x01

/-- Modelled from the spec: FHSS-changed-channel IRQ flag bit. -/
def RFLR_IRQFLAGS_FHSSCHANGEDCHANNEL : Nat := 0x02

/-- Modelled from the spec: CAD-done IRQ flag bit. -/
def RFLR_IRQFLAGS_CADDONE : Nat := 0x04

/-- Modelled from the spec: TX-done IRQ flag bit. -/
def RFLR_IRQFLAGS_TXDONE : Nat := 0x08

/-- Modelled from the spec: valid-header IRQ flag bit. -/
def RFLR_IRQFLAGS_VALIDHEADER : Nat := 0x10

/-- Modelled from the spec: payload-CRC-error IRQ flag bit. -/
def RFLR_IRQFLAGS_PAYLOADCRCERROR : Nat := 0x20

/-- Modelled from the spec: RX-done IRQ flag bit. -/
def RFLR_IRQFLAGS_RXDONE : Nat := 0x40

/-- Modelled from the spec: RX-timeout IRQ flag bit. -/
def RFLR_IRQFLAGS_RXTIMEOUT : Nat := 0x80

/-- Modelled from the spec: `RFLR_IRQFLAGS_PAYLOADCRCERROR_MASK` is defined in
the missing header include/sx1276_regs_lora.h.  The spec reads the guard at
sx1276.c line 1221, `(irq_flags & RFLR_IRQFLAGS_PAYLOADCRCERROR_MASK) ==
RFLR_IRQFLAGS_PAYLOADCRCERROR`, as "if the CRC-error flag is set" (§4.6), i.e.
the masked test selects exactly the CRC-error bit; the mask is therefore
modelled as the CRC-error bit itself. -/
def RFLR_IRQFLAGS_PAYLOADCRCERROR_MASK : Nat := RFLR_IRQFLAGS_PAYLOADCRCERROR

/-- Modelled from the spec: LoRa modem-config-1 bandwidth AND-mask. -/
def RFLR_MODEMCONFIG1_BW_MASK : Nat := 0x0F

/-- Modelled from the spec: LoRa modem-config-1 coding-rate AND-mask. -/
def RFLR_MODEMCONFIG1_CODINGRATE_MASK : Nat := 0xF1

/-- Modelled from the spec: LoRa modem-config-1 implicit-header AND-mask. -/
def RFLR_MODEMCONFIG1_IMPLICITHEADER_MASK : Nat := 0xFE

/-- Modelled from the spec: LoRa modem-config-2 spreading-factor AND-mask. -/
def RFLR_MODEMCONFIG2_SF_MASK : Nat := 0x0F

/-- Modelled from the spec: LoRa modem-config-2 RX-payload-CRC AND-mask. -/
def RFLR_MODEMCONFIG2_RXPAYLOADCRC_MASK : Nat := 0xFB

/-- Modelled from the spec: LoRa modem-config-2 symbol-timeout-MSB AND-mask. -/
def RFLR_MODEMCONFIG2_SYMBTIMEOUTMSB_MASK : Nat := 0xFC

/-- Modelled from the spec: LoRa modem-config-3 low-datarate-optimize AND-mask. -/
def RFLR_MODEMCONFIG3_LOWDATARATEOPTIMIZE_MASK : Nat := 0xF7

/-- Modelled from the spec: LoRa PLL-hop fast-hop AND-mask. -/
def RFLR_PLLHOP_FASTHOP_MASK : Nat := 0x7F

/-- Modelled from the spec: LoRa PLL-hop fast-hop ON value. -/
def RFLR_PLLHOP_FASTHOP_ON : Nat := 0x80

/-- Modelled from the spec: detection-optimize field AND-mask. -/
def RFLR_DETECTIONOPTIMIZE_MASK : Nat := 0xF8

/-- Modelled from the spec: detection-optimize value for SF6. -/
def RFLR_DETECTIONOPTIMIZE_SF6 : Nat := 0x05

/-- Modelled from the spec: detection-optimize value for SF7..SF12. -/
def RFLR_DETECTIONOPTIMIZE_SF7_TO_SF12 : Nat := 0x03

/-- Modelled from the spec: detection threshold for SF6. -/
def RFLR_DETECTIONTHRESH_SF6 : Nat := 0x0C

/-- Modelled from the spec: detection threshold for SF7..SF12. -/
def RFLR_DETECTIONTHRESH_SF7_TO_SF12 : Nat := 0x0A

/-- Modelled from the spec: PA-select AND-mask of RegPaConfig (clears bit 7). -/
def RF_PACONFIG_PASELECT_MASK : Nat := 0x7F

/-- Modelled from the spec: the boosted-output ("PA_BOOST") selection value of
RegPaConfig, bit 7 set — the value `sx1276_get_pa_select` returns for the
boosted output.  The spec's §4.3 power rules ("4-bit output field" in the low
nibble, select bit on top) fix this layout. -/
def RF_PACONFIG_PASELECT_PABOOST : Nat := 0x80

/-- Modelled from the spec: the RFO output selection value (bit 7 clear). -/
def RF_PACONFIG_PASELECT_RFO : Nat := 0x00

/-- Modelled from the spec: max-power field AND-mask of RegPaConfig. -/
def RF_PACONFIG_MAX_POWER_MASK : Nat := 0x8F

/-- Modelled from the spec: output-power field AND-mask of RegPaConfig (the
4-bit output field is the low nibble). -/
def RF_PACONFIG_OUTPUTPOWER_MASK : Nat := 0xF0

/-- Modelled from the spec: PA-DAC 20 dBm AND-mask of RegPaDac. -/
def RF_PADAC_20DBM_MASK : Nat := 0xF8

/-- Modelled from the spec: PA-DAC value enabling the +20 dBm mode. -/
def RF_PADAC_20DBM_ON : Nat := 0x07

/-- Modelled from the spec: PA-DAC value disabling the +20 dBm mode. -/
def RF_PADAC_20DBM_OFF : Nat := 0x04

/-- Modelled from the spec: 50 us PA ramp value written to RegPaRamp. -/
def RF_PARAMP_0050_US : Nat := 0x08

/-! ## Data model -/

/-- The LoRa settings record of the device state
(`dev->settings.lora`, spec §3 "LoRa settings record"). -/
structure LoraSettings where
  bandwidth : Nat
  datarate : Nat
  coderate : Nat
  preamble_len : Nat
  implicit_header : Bool
  payload_len : Nat
  crc_on : Bool
  freq_hop_on : Bool
  hop_period : Nat
  iq_inverted : Bool
  low_datarate_optimize : Nat
  rx_continuous : Bool
  tx_timeout : Nat
  deriving DecidableEq

/-- A default settings record used as the concrete device state of the
evaluation theorems (all-zero / all-false fields). -/
def lora0 : LoraSettings :=
  { bandwidth := 0, datarate := 0, coderate := 0, preamble_len := 0,
    implicit_header := false, payload_len := 0, crc_on := false,
    freq_hop_on := false, hop_period := 0, iq_inverted := false,
    low_datarate_optimize := 0, rx_continuous := false, tx_timeout := 0 }

/-- The chip's register file, as seen through the register transport: a byte
per 8-bit address. -/
def RegFile : Type := Nat → Nat

/-- A single register write (`sx1276_reg_write`), as its effect on the
register file. -/
def regWrite (r : RegFile) (a v : Nat) : RegFile :=
  fun x => if x = a then v else r x

/-- The all-zero register file used as the concrete starting point of the
evaluation theorems. -/
def regs0 : RegFile := fun _ => 0

/-- The typed application events of the event channel (spec §3 `Event`).
`rxDone` carries the decoded SNR, the decoded RSSI and the payload size; the
payload bytes themselves are a transport artefact with no bearing on any
claim. -/
inductive Event where
  | txDone : Event
  | txTimeout : Event
  | rxTimeout : Event
  | rxDone (snr : Int) (rssi : Int) (size : Nat) : Event
  | rxError (reason : String) : Event
  | fhssChangeChannel (channel : Nat) : Event
  | cadDone (detected : Bool) : Event
  deriving DecidableEq

/-- Observable driver actions of the mode controller: board antenna-switch callbacks,
register writes and settle delays, in program order. -/
inductive DrvAction where
  | antSwLowPower (lp : Bool) : DrvAction
  | antSw (tx : Nat) : DrvAction
  | regWriteAct (addr value : Nat) : DrvAction
  | delay (us : Nat) : DrvAction
  deriving DecidableEq

/-- Modelled from the spec: the chip's LoRa IRQ-flags register is
write-1-to-clear.  The spec and the source comments describe every write to
`REG_LR_IRQFLAGS` as "clearing" the named flags (e.g. sx1276.c lines 1217,
1384), so a read that follows such a write returns the previous flags with the
written bits cleared. -/
def irqReadAfterClear (flagsBefore cleared : Nat) : Nat :=
  flagsBefore &&& (0xFF ^^^ cleared)

/-! ## Mode controller and channel setting -/

/-- `sx1276_set_op_mode` (sx1276.c lines 1050-1075).  Input: the byte currently
held by `REG_OPMODE` (the function's only register read) and the requested
mode.  Output: the register file after the call and the ordered list of
observable actions.  The C code computes
`op_mode_prev = reg_read(REG_OPMODE) & ~RF_OPMODE_MASK` and, when the requested
mode differs, drives the antenna switch before writing
`(op_mode_prev & RF_OPMODE_MASK) | op_mode` and sleeping 5 ms. -/
def sx1276_set_op_mode (regs : RegFile) (op_mode : Nat) : RegFile × List DrvAction :=
  let op_mode_prev := regs REG_OPMODE &&& (0xFF ^^^ RF_OPMODE_MASK)
  if op_mode ≠ op_mode_prev then
    let antActs :=
      if op_mode == RF_OPMODE_SLEEP then
        [DrvAction.antSwLowPower true]
      else
        [DrvAction.antSwLowPower false,
         DrvAction.antSw (if op_mode == RF_OPMODE_TRANSMITTER then 1 else 0)]
    let v := (op_mode_prev &&& RF_OPMODE_MASK) ||| op_mode
    (regWrite regs REG_OPMODE v,
     antActs ++ [DrvAction.regWriteAct REG_OPMODE v, DrvAction.delay 5000])
  else
    (regs, [])

/-- The raw synthesizer tick conversion of `sx1276_set_channel` (sx1276.c line
207): `freq = (uint32_t)((double) freq / (double) FREQ_STEP);` with
`FREQ_STEP = 61.03515625` Hz (the chip's step, 32 MHz / 2^19, defined in the
missing header sx1276.h and exactly representable as the dyadic rational
15625/256).  For every `freq < 2^32` the exact quotient `freq·256/15625` is
at least `1/15625` away from every integer unless it is one, while the double
division is exact to within `2^-27` at this magnitude, so truncating the
double quotient equals the exact floor below. -/
def sx1276_channel_ticks (freq : Nat) : Nat :=
  freq * 256 / 15625

/-- `sx1276_set_channel` (sx1276.c lines 200-216): save `REG_OPMODE`, force
Standby through the mode controller, write the 24-bit tick value MSB-first to
the three frequency registers, then write the saved byte back to
`REG_OPMODE`. -/
def sx1276_set_channel (regs : RegFile) (freq : Nat) : RegFile :=
  let prev_mode := regs REG_OPMODE
  let regs := (sx1276_set_op_mode regs RF_OPMODE_STANDBY).1
  let ticks := sx1276_channel_ticks freq
  let regs := regWrite regs REG_FRFMSB ((ticks >>> 16) &&& 0xFF)
  let regs := regWrite regs REG_FRFMID ((ticks >>> 8) &&& 0xFF)
  let regs := regWrite regs REG_FRFLSB (ticks &&& 0xFF)
  regWrite regs REG_OPMODE prev_mode

/-- The claim's tick conversion, written from the spec's words
("raw synthesizer ticks = round(freqHz / stepHz)"): rounding
`freq·256/15625` to the nearest integer (half away from zero). -/
def spec_round_ticks (freq : Nat) : Nat :=
  (freq * 512 + 15625) / 31250

/-! ## Configuration engine -/

/-- `sx1276_get_pa_select` (sx1276.c lines 497-505): boosted output iff the
channel is strictly below the mid-band threshold, RFO otherwise. -/
def sx1276_get_pa_select (channel : Nat) : Nat :=
  if channel < RF_MID_BAND_THRESH then
    RF_PACONFIG_PASELECT_PABOOST
  else
    RF_PACONFIG_PASELECT_RFO

/-- The datarate clamp of `sx1276_set_rx_config` / `sx1276_set_tx_config`
(sx1276.c lines 405-410 and 598-603), applied to the local variable after the
settings record has already stored the unclamped argument. -/
def sx1276_lora_clamp_datarate (datarate : Nat) : Nat :=
  if datarate > 12 then 12
  else if datarate < 6 then 6
  else datarate

/-- The low-datarate-optimize computation of `sx1276_set_rx_config` /
`sx1276_set_tx_config` (sx1276.c lines 412-418 and 605-611), on the internal
bandwidth code (7/8/9) and the clamped datarate. -/
def sx1276_lora_low_datarate_optimize (bandwidth datarate : Nat) : Nat :=
  if ((bandwidth == 7) && ((datarate == 11) || (datarate == 12)))
     || ((bandwidth == 8) && (datarate == 12)) then 0x01 else 0x00

/-- The ERRATA 2.1 writes of `sx1276_set_rx_config` / `sx1276_set_tx_config`
(sx1276.c lines 465-478 and 647-660).  The first C condition is
`(bandwidth == 9) && (RF_MID_BAND_THRESH)`: it tests the truthiness of the
constant `RF_MID_BAND_THRESH` itself — the device's channel is not consulted
anywhere in this block, which is why this function has no channel argument. -/
def sx1276_errata_sensitivity_writes (bandwidth : Nat) : List (Nat × Nat) :=
  if bandwidth == 9 && RF_MID_BAND_THRESH != 0 then
    [(REG_LR_TEST36, 0x02), (REG_LR_TEST3A, 0x64)]
  else if bandwidth == 9 then
    [(REG_LR_TEST36, 0x02), (REG_LR_TEST3A, 0x7F)]
  else
    [(REG_LR_TEST36, 0x03)]

/-- The detection-optimize / detection-threshold writes of
`sx1276_set_rx_config` / `sx1276_set_tx_config` (sx1276.c lines 480-491 and
662-673), on the clamped datarate.  `detectOpt` is the byte read from
`REG_LR_DETECTOPTIMIZE`. -/
def sx1276_detect_writes (detectOpt datarate : Nat) : List (Nat × Nat) :=
  if datarate == 6 then
    [(REG_LR_DETECTOPTIMIZE,
      ((detectOpt &&& RFLR_DETECTIONOPTIMIZE_MASK) ||| RFLR_DETECTIONOPTIMIZE_SF6) &&& 0xFF),
     (REG_LR_DETECTIONTHRESHOLD, RFLR_DETECTIONTHRESH_SF6)]
  else
    [(REG_LR_DETECTOPTIMIZE, RFLR_DETECTIONOPTIMIZE_SF7_TO_SF12),
     (REG_LR_DETECTIONTHRESHOLD, RFLR_DETECTIONTHRESH_SF7_TO_SF12)]

/-- The `MODEM_LORA` branch of `sx1276_set_rx_config` (sx1276.c lines
382-492).  `regs` supplies the bytes of the read-modify-write register reads
(each such register is read before the function's only write to it, so the
initial file suffices).  Returns the new stored LoRa settings and the ordered
register writes, or `none` for the source's un-exitable `while (1) {}` on a
bandwidth code above 2.  Written values carry `&&& 0xFF` where the C code
narrows to the `uint8_t` write-data parameter.  The `bandwidth_afc` argument of
the C function is unused in this branch and omitted.  Note the source stores
the *unclamped* `datarate` argument into the settings (line 394) and only then
clamps its local copy (lines 405-410). -/
def sx1276_set_rx_config_lora (s : LoraSettings) (regs : RegFile)
    (bandwidth datarate coderate preamble_len symb_timeout : Nat)
    (implicit_header : Bool) (payload_len : Nat)
    (crc_on freq_hop_on : Bool) (hop_period : Nat)
    (iq_inverted rx_continuous : Bool) :
    Option (LoraSettings × List (Nat × Nat)) :=
  if bandwidth > 2 then
    none
  else
    let bandwidth := bandwidth + 7
    let s := { s with
      bandwidth := bandwidth, datarate := datarate, coderate := coderate,
      preamble_len := preamble_len, implicit_header := implicit_header,
      payload_len := payload_len, crc_on := crc_on, freq_hop_on := freq_hop_on,
      hop_period := hop_period, iq_inverted := iq_inverted,
      rx_continuous := rx_continuous }
    let datarate := sx1276_lora_clamp_datarate datarate
    let s := { s with
      low_datarate_optimize := sx1276_lora_low_datarate_optimize bandwidth datarate }
    let ws : List (Nat × Nat) :=
      [(REG_LR_MODEMCONFIG1,
        ((regs REG_LR_MODEMCONFIG1 &&& RFLR_MODEMCONFIG1_BW_MASK &&&
          RFLR_MODEMCONFIG1_CODINGRATE_MASK &&& RFLR_MODEMCONFIG1_IMPLICITHEADER_MASK)
         ||| (bandwidth <<< 4) ||| (coderate <<< 1) ||| implicit_header.toNat) &&& 0xFF),
       (REG_LR_MODEMCONFIG2,
        ((regs REG_LR_MODEMCONFIG2 &&& RFLR_MODEMCONFIG2_SF_MASK &&&
          RFLR_MODEMCONFIG2_RXPAYLOADCRC_MASK &&& RFLR_MODEMCONFIG2_SYMBTIMEOUTMSB_MASK)
         ||| (datarate <<< 4) ||| (crc_on.toNat <<< 2)
         ||| ((symb_timeout >>> 8) &&& (0xFF ^^^ RFLR_MODEMCONFIG2_SYMBTIMEOUTMSB_MASK))) &&& 0xFF),
       (REG_LR_MODEMCONFIG3,
        ((regs REG_LR_MODEMCONFIG3 &&& RFLR_MODEMCONFIG3_LOWDATARATEOPTIMIZE_MASK)
         ||| (s.low_datarate_optimize <<< 3)) &&& 0xFF),
       (REG_LR_SYMBTIMEOUTLSB, symb_timeout &&& 0xFF),
       (REG_LR_PREAMBLEMSB, (preamble_len >>> 8) &&& 0xFF),
       (REG_LR_PREAMBLELSB, preamble_len &&& 0xFF)]
      ++ (if !implicit_header then [(REG_LR_PAYLOADLENGTH, payload_len &&& 0xFF)] else [])
      ++ (if s.freq_hop_on then
            [(REG_LR_PLLHOP,
              ((regs REG_LR_PLLHOP &&& RFLR_PLLHOP_FASTHOP_MASK) ||| RFLR_PLLHOP_FASTHOP_ON) &&& 0xFF),
             (REG_LR_HOPPERIOD, s.hop_period &&& 0xFF)]
          else [])
      ++ sx1276_errata_sensitivity_writes bandwidth
      ++ sx1276_detect_writes (regs REG_LR_DETECTOPTIMIZE) datarate
    some (s, ws)

/-- The `MODEM_LORA` branch of `sx1276_set_tx_config` (sx1276.c lines
576-674), as `sx1276_set_rx_config_lora` above: same bandwidth halt, the same
store-then-clamp order for `datarate` (lines 588, 598-603), no symbol-timeout
or payload-length writes, and `tx_timeout` stored from the `timeout`
argument.  The PA-configuration part of `sx1276_set_tx_config` (lines 514-570)
is embedded separately as `sx1276_set_tx_config_pa`. -/
def sx1276_set_tx_config_lora (s : LoraSettings) (regs : RegFile)
    (bandwidth datarate coderate preamble_len : Nat)
    (implicit_header crc_on freq_hop_on : Bool) (hop_period : Nat)
    (iq_inverted : Bool) (timeout : Nat) :
    Option (LoraSettings × List (Nat × Nat)) :=
  if bandwidth > 2 then
    none
  else
    let bandwidth := bandwidth + 7
    let s := { s with
      bandwidth := bandwidth, datarate := datarate, coderate := coderate,
      preamble_len := preamble_len, implicit_header := implicit_header,
      crc_on := crc_on, freq_hop_on := freq_hop_on, hop_period := hop_period,
      iq_inverted := iq_inverted, tx_timeout := timeout }
    let datarate := sx1276_lora_clamp_datarate datarate
    let s := { s with
      low_datarate_optimize := sx1276_lora_low_datarate_optimize bandwidth datarate }
    let ws : List (Nat × Nat) :=
      [(REG_LR_MODEMCONFIG1,
        ((regs REG_LR_MODEMCONFIG1 &&& RFLR_MODEMCONFIG1_BW_MASK &&&
          RFLR_MODEMCONFIG1_CODINGRATE_MASK &&& RFLR_MODEMCONFIG1_IMPLICITHEADER_MASK)
         ||| (bandwidth <<< 4) ||| (coderate <<< 1) ||| implicit_header.toNat) &&& 0xFF),
       (REG_LR_MODEMCONFIG2,
        ((regs REG_LR_MODEMCONFIG2 &&& RFLR_MODEMCONFIG2_SF_MASK &&&
          RFLR_MODEMCONFIG2_RXPAYLOADCRC_MASK)
         ||| (datarate <<< 4) ||| (crc_on.toNat <<< 2)) &&& 0xFF),
       (REG_LR_MODEMCONFIG3,
        ((regs REG_LR_MODEMCONFIG3 &&& RFLR_MODEMCONFIG3_LOWDATARATEOPTIMIZE_MASK)
         ||| (s.low_datarate_optimize <<< 3)) &&& 0xFF),
       (REG_LR_PREAMBLEMSB, (preamble_len >>> 8) &&& 0xFF),
       (REG_LR_PREAMBLELSB, preamble_len &&& 0xFF)]
      ++ (if s.freq_hop_on then
            [(REG_LR_PLLHOP,
              ((regs REG_LR_PLLHOP &&& RFLR_PLLHOP_FASTHOP_MASK) ||| RFLR_PLLHOP_FASTHOP_ON) &&& 0xFF),
             (REG_LR_HOPPERIOD, s.hop_period &&& 0xFF)]
          else [])
      ++ sx1276_errata_sensitivity_writes bandwidth
      ++ sx1276_detect_writes (regs REG_LR_DETECTOPTIMIZE) datarate
    some (s, ws)

/-- The PA-configuration section of `sx1276_set_tx_config` (sx1276.c lines
514-570).  `paConfigInit` / `paDacInit` are the bytes read from `REG_PACONFIG`
and `REG_PADAC`; the result is the pair of bytes written back to them.  Line
522 assigns `(pa_config & RF_PACONFIG_PASELECT_MASK) |
sx1276_get_pa_select(channel) << 7` to the `uint8_t` variable `pa_config`: the
shift result (0x80 << 7 = 0x4000 for the boosted selection) is truncated by the
8-bit assignment, modelled by the `% 256`.  `power` is the `int8_t` argument. -/
def sx1276_set_tx_config_pa (paConfigInit paDacInit channel : Nat) (power : Int) :
    Nat × Nat :=
  let pa_config := ((paConfigInit &&& RF_PACONFIG_PASELECT_MASK) |||
                    (sx1276_get_pa_select channel <<< 7)) % 256
  let pa_config := (pa_config &&& RF_PACONFIG_MAX_POWER_MASK) ||| (0x05 <<< 4)
  if (pa_config &&& RF_PACONFIG_PASELECT_PABOOST) == RF_PACONFIG_PASELECT_PABOOST then
    let pa_dac :=
      if power > 17 then (paDacInit &&& RF_PADAC_20DBM_MASK) ||| RF_PADAC_20DBM_ON
      else (paDacInit &&& RF_PADAC_20DBM_MASK) ||| RF_PADAC_20DBM_OFF
    if (pa_dac &&& RF_PADAC_20DBM_ON) == RF_PADAC_20DBM_ON then
      let power := if power < 5 then 5 else power
      let power := if power > 20 then 20 else power
      ((pa_config &&& RF_PACONFIG_OUTPUTPOWER_MASK) ||| ((power - 5).toNat &&& 0x0F),
       pa_dac)
    else
      let power := if power < 2 then 2 else power
      let power := if power > 17 then 17 else power
      ((pa_config &&& RF_PACONFIG_OUTPUTPOWER_MASK) ||| ((power - 2).toNat &&& 0x0F),
       pa_dac)
  else
    let power := if power < -1 then -1 else power
    let power := if power > 14 then 14 else power
    ((pa_config &&& RF_PACONFIG_OUTPUTPOWER_MASK) ||| ((power + 1).toNat &&& 0x0F),
     paDacInit)

/-! ## RX orchestration erratum -/

/-- The ERRATA 2.3 block of `sx1276_set_rx` (sx1276.c lines 861-905), for a
stored LoRa bandwidth code below 9: write `REG_LR_DETECTOPTIMIZE & 0x7F`,
`REG_LR_TEST30 = 0`, then a per-bandwidth `REG_LR_TEST2F` value; for codes
0-5 additionally call `sx1276_set_channel(channel + offset)` — the second
component is the frequency passed to that call (`none` when no call is made).
The C offsets `7.81e3 … 41.67e3` are the exact integers 7810 … 41670 Hz.  For
a code of 9 or above the block only sets bit 7 of `REG_LR_DETECTOPTIMIZE`. -/
def sx1276_set_rx_errata (detectOpt channel bandwidth : Nat) :
    List (Nat × Nat) × Option Nat :=
  if bandwidth < 9 then
    let pre := [(REG_LR_DETECTOPTIMIZE, detectOpt &&& 0x7F), (REG_LR_TEST30, 0x00)]
    match bandwidth with
    | 0 => (pre ++ [(REG_LR_TEST2F, 0x48)], some (channel + 7810))
    | 1 => (pre ++ [(REG_LR_TEST2F, 0x44)], some (channel + 10420))
    | 2 => (pre ++ [(REG_LR_TEST2F, 0x44)], some (channel + 15620))
    | 3 => (pre ++ [(REG_LR_TEST2F, 0x44)], some (channel + 20830))
    | 4 => (pre ++ [(REG_LR_TEST2F, 0x44)], some (channel + 31250))
    | 5 => (pre ++ [(REG_LR_TEST2F, 0x44)], some (channel + 41670))
    | _ => (pre ++ [(REG_LR_TEST2F, 0x40)], none)
  else
    ([(REG_LR_DETECTOPTIMIZE, (detectOpt ||| 0x80) &&& 0xFF)], none)

/-! ## RSSI, SNR and the interrupt handlers -/

/-- `sx1276_read_rssi` (sx1276.c lines 1001-1023).  `fskRaw` / `loraRaw` are
the bytes the FSK and LoRa branches would read from their RSSI registers; the
second component counts the register reads actually performed (the `default`
branch returns -1 without touching the bus). -/
def sx1276_read_rssi (modem channel fskRaw loraRaw : Nat) : Int × Nat :=
  if modem == MODEM_FSK then
    (-(Int.ofNat ((fskRaw &&& 0xFF) >>> 1)), 1)
  else if modem == MODEM_LORA then
    if channel > RF_MID_BAND_THRESH then
      (RSSI_OFFSET_HF + Int.ofNat (loraRaw &&& 0xFF), 1)
    else
      (RSSI_OFFSET_LF + Int.ofNat (loraRaw &&& 0xFF), 1)
  else
    (-1, 0)

/-- The packet-SNR decode of `sx1276_on_dio0` (sx1276.c lines 1237-1246) for a
raw register byte: high bit set ⇒ two's-complement magnitude
`((~raw + 1) & 0xFF) >> 2`, negated; otherwise `(raw & 0xFF) >> 2`. -/
def sx1276_decode_snr (raw : Nat) : Int :=
  if (raw &&& 0x80) ≠ 0 then
    -(Int.ofNat ((((raw ^^^ 0xFF) + 1) &&& 0xFF) >>> 2))
  else
    Int.ofNat ((raw &&& 0xFF) >>> 2)

/-- The inputs of one `sx1276_on_dio0` run (sx1276.c lines 1204-1303): the
device state fields it reads and the register bytes the handler would read. -/
structure Dio0Input where
  state : Nat
  modem : Nat
  rx_continuous : Bool
  channel : Nat
  irqFlags : Nat
  snrRaw : Nat
  rssiRaw : Nat
  rxNbBytes : Nat
  deriving DecidableEq

/-- The observable outcome of one `sx1276_on_dio0` run: the device state
afterwards, the emitted events, which timeout timers were cancelled
(`xtimer_remove`), and the values written to `REG_LR_IRQFLAGS`. -/
structure Dio0Output where
  state : Nat
  events : List Event
  rxTimeoutCancelled : Bool
  txTimeoutCancelled : Bool
  irqWrites : List Nat
  deriving DecidableEq

/-- `sx1276_on_dio0` (sx1276.c lines 1204-1303).  In `RF_RX_RUNNING` with the
LoRa modem: clear RX-done, re-read the flags (write-1-to-clear, so the
readback is `irqReadAfterClear`); on the CRC-error guard clear that flag, drop
to idle unless `rx_continuous`, cancel the RX timer and emit `RxError`;
otherwise decode SNR and RSSI, read the byte count, drop to idle unless
`rx_continuous`, cancel the RX timer and emit `RxDone` (the FIFO bytes, FIFO
pointer write and the packet-buffer allocation are transport effects carrying
no claim-relevant data and are not modelled).  In `RF_TX_RUNNING`: cancel the
TX timer, clear TX-done, go idle, emit `TxDone`. -/
def sx1276_on_dio0 (i : Dio0Input) : Dio0Output :=
  if i.state == RF_RX_RUNNING then
    if i.modem == MODEM_LORA then
      let irq_flags := irqReadAfterClear i.irqFlags RFLR_IRQFLAGS_RXDONE
      if (irq_flags &&& RFLR_IRQFLAGS_PAYLOADCRCERROR_MASK) == RFLR_IRQFLAGS_PAYLOADCRCERROR then
        { state := if !i.rx_continuous then RF_IDLE else i.state,
          events := [Event.rxError "CRC error"],
          rxTimeoutCancelled := true,
          txTimeoutCancelled := false,
          irqWrites := [RFLR_IRQFLAGS_RXDONE, RFLR_IRQFLAGS_PAYLOADCRCERROR] }
      else
        let snr := sx1276_decode_snr (i.snrRaw &&& 0xFF)
        let rssi : Int := Int.ofNat (i.rssiRaw &&& 0xFF)
        let rssiVal : Int :=
          if snr < 0 then
            if i.channel > RF_MID_BAND_THRESH then
              RSSI_OFFSET_HF + rssi + (rssi / 16) + snr
            else
              RSSI_OFFSET_LF + rssi + (rssi / 16) + snr
          else
            if i.channel > RF_MID_BAND_THRESH then
              RSSI_OFFSET_HF + rssi + (rssi / 16)
            else
              RSSI_OFFSET_LF + rssi + (rssi / 16)
        { state := if !i.rx_continuous then RF_IDLE else i.state,
          events := [Event.rxDone snr rssiVal (i.rxNbBytes &&& 0xFF)],
          rxTimeoutCancelled := true,
          txTimeoutCancelled := false,
          irqWrites := [RFLR_IRQFLAGS_RXDONE] }
    else
      { state := i.state, events := [], rxTimeoutCancelled := false,
        txTimeoutCancelled := false, irqWrites := [] }
  else if i.state == RF_TX_RUNNING then
    { state := RF_IDLE, events := [Event.txDone], rxTimeoutCancelled := false,
      txTimeoutCancelled := true, irqWrites := [RFLR_IRQFLAGS_TXDONE] }
  else
    { state := i.state, events := [], rxTimeoutCancelled := false,
      txTimeoutCancelled := false, irqWrites := [] }

/-- `sx1276_on_dio3` (sx1276.c lines 1375-1394), the CAD line handler.  For
the LoRa modem it first writes the clear of CAD-detected and CAD-done to
`REG_LR_IRQFLAGS` and only then reads the flags back to compute the
`CadDone` payload.  Result: the emitted events and the values written to
`REG_LR_IRQFLAGS`. -/
def sx1276_on_dio3 (modem irqFlags : Nat) : List Event × List Nat :=
  if modem == MODEM_FSK then
    ([], [])
  else if modem == MODEM_LORA then
    let cleared := RFLR_IRQFLAGS_CADDETECTED ||| RFLR_IRQFLAGS_CADDONE
    let readback := irqReadAfterClear irqFlags cleared
    let result := (readback &&& RFLR_IRQFLAGS_CADDETECTED) == RFLR_IRQFLAGS_CADDETECTED
    ([Event.cadDone result], [cleared])
  else
    ([], [])

/-- The `MODEM_LORA` branch of `sx1276_get_time_on_air` (sx1276.c lines
688-730).  The C function computes with `double`; it is embedded here exactly
over `ℚ`, mirroring the C expression for expression (`4.25 = 17/4`,
`0.999 = 999/1000`; the double nearest 0.999 differs from it by under 1e-16,
far below anything the evaluations here resolve).  Double rounding is
otherwise not modelled: it could only matter where an intermediate rounding
error crosses the `ceil`/`floor` boundary, and the concrete evaluations below
sit far from those boundaries.  The C `switch` on the stored bandwidth code
has no default, leaving `bw = 0.0` (a division by zero the driver never
guards; no claim evaluates that case).  The function reads `s.datarate` — the
datarate recorded in the device state by `sx1276_set_rx_config` /
`sx1276_set_tx_config` — and the stored `low_datarate_optimize`, `coderate`,
`preamble_len`, `implicit_header` and `crc_on` fields.  The final `floor`
result is non-negative wherever the bandwidth is set, so the C `uint32_t`
assignment is `Int.toNat`. -/
def sx1276_get_time_on_air_lora (s : LoraSettings) (pkt_len : Nat) : Nat :=
  let bw : ℚ :=
    match s.bandwidth with
    | 7 => 125000
    | 8 => 250000
    | 9 => 500000
    | _ => 0
  let rs : ℚ := bw / (2 ^ s.datarate : ℚ)
  let ts : ℚ := 1 / rs
  let t_preamble : ℚ := ((s.preamble_len : ℚ) + 17 / 4) * ts
  let num : Int := 8 * (pkt_len : Int) - 4 * (s.datarate : Int) + 28
                   + 16 * (if s.crc_on then 1 else 0)
                   - (if !s.implicit_header then 20 else 0)
  let denom : Int := 4 * (s.datarate : Int)
                   - (if s.low_datarate_optimize > 0 then 2 else 0)
  let tmp : ℚ := (⌈(num : ℚ) / (denom : ℚ)⌉ : ℚ) * ((s.coderate : ℚ) + 4)
  let n_payload : ℚ := 8 + (if tmp > 0 then tmp else 0)
  let t_payload : ℚ := n_payload * ts
  let t_on_air : ℚ := t_preamble + t_payload
  (⌊t_on_air * 1000000 + 999 / 1000⌋).toNat

/-! ## Shared evaluation harness -/

/-- The values a write list stores to one address, in write order. -/
def writesTo (ws : List (Nat × Nat)) (a : Nat) : List Nat :=
  (ws.filter (fun w => w.1 == a)).map Prod.snd

/-- The write list of a concrete `sx1276_set_rx_config_lora` call with
bandwidth code `bw` (datarate 12, coderate 1, preamble 8, symbol timeout 5,
explicit header, payload 16, CRC on, hopping off, IQ normal, single RX), used
by the evaluation theorems. -/
def rxW (bw : Nat) : List (Nat × Nat) :=
  ((sx1276_set_rx_config_lora lora0 regs0 bw 12 1 8 5 false 16 true false 0
      false false).getD (lora0, [])).2

/-- The write list of the matching concrete `sx1276_set_tx_config_lora` call. -/
def txW (bw : Nat) : List (Nat × Nat) :=
  ((sx1276_set_tx_config_lora lora0 regs0 bw 12 1 8 false true false 0
      false 0).getD (lora0, [])).2

/-- Whether the `sx1276_set_rx` erratum block writes `REG_LR_TEST2F` for a
given stored bandwidth code (evaluated in the all-zero register context; the
choice of test-register value never depends on the register contents). -/
def errataWritesTest2F (bw : Nat) : Bool :=
  (sx1276_set_rx_errata 0 0 bw).1.any (fun w => w.1 == REG_LR_TEST2F)

/-- The LoRa settings stored by the C4 counterexample call: bandwidth code 2
(500 kHz), datarate argument 13 recorded unclamped. -/
def c4Settings : LoraSettings :=
  ((sx1276_set_rx_config_lora lora0 regs0 2 13 1 8 5 false 16 true false 0
      false false).getD (lora0, [])).1

/-! ## C1 -/

/-- C1: the band-sensitivity errata of `setRxConfig`/`setTxConfig` does NOT
select between 0x64 and 0x7F by comparing the channel to the mid-band
threshold.  The C guard `(bandwidth == 9) && (RF_MID_BAND_THRESH)` tests the
nonzero constant itself, so for the 500 kHz code the driver always writes
0x02/0x64 — also at a channel (434 MHz) below the threshold, where the claim
requires the 0x02/0x7F pair; the 0x7F branch is unreachable.  The bandwidth
codes 0 and 1 do get the third value 0x03. -/
theorem C1_errata_ignores_channel :
    RF_MID_BAND_THRESH ≠ 0
    ∧ (434000000 : Nat) < RF_MID_BAND_THRESH
    ∧ sx1276_errata_sensitivity_writes 9 = [(REG_LR_TEST36, 0x02), (REG_LR_TEST3A, 0x64)]
    ∧ writesTo (rxW 2) REG_LR_TEST36 = [0x02]
    ∧ writesTo (rxW 2) REG_LR_TEST3A = [0x64]
    ∧ writesTo (txW 2) REG_LR_TEST36 = [0x02]
    ∧ writesTo (txW 2) REG_LR_TEST3A = [0x64]
    ∧ writesTo (rxW 0) REG_LR_TEST36 = [0x03]
    ∧ writesTo (rxW 0) REG_LR_TEST3A = []
    ∧ writesTo (rxW 1) REG_LR_TEST36 = [0x03]
    ∧ writesTo (rxW 1) REG_LR_TEST3A = [] := by
  decide

/-! ## C2 -/

/-- C2: the CAD handler emits `CadDone(false)` for EVERY prior flag state:
it writes the clear of CAD-detected and CAD-done first (sx1276.c line 1385)
and only then reads the flags back, so the payload is computed from the
post-clear value and never reflects whether CAD-detected was set before the
clear. -/
theorem C2_cad_done_always_false (flags : Nat) :
    (sx1276_on_dio3 MODEM_LORA flags).1 = [Event.cadDone false]
    ∧ (sx1276_on_dio3 MODEM_LORA flags).2 =
        [RFLR_IRQFLAGS_CADDETECTED ||| RFLR_IRQFLAGS_CADDONE] := by
  have hc : ((0xFF ^^^ (RFLR_IRQFLAGS_CADDETECTED ||| RFLR_IRQFLAGS_CADDONE))
      &&& RFLR_IRQFLAGS_CADDETECTED) = 0 := by decide
  have h : (flags &&& (0xFF ^^^ (RFLR_IRQFLAGS_CADDETECTED ||| RFLR_IRQFLAGS_CADDONE)))
      &&& RFLR_IRQFLAGS_CADDETECTED = 0 := by
    rw [Nat.and_assoc, hc, Nat.and_zero]
  constructor
  · simp only [sx1276_on_dio3, irqReadAfterClear]
    rw [if_neg (by decide), if_pos (by decide)]
    rw [h]
    rfl
  · simp only [sx1276_on_dio3, irqReadAfterClear]
    rw [if_neg (by decide), if_pos (by decide)]

/-! ## C5 -/

/-- C5: `sx1276_get_pa_select` does return the boosted selection exactly below
the threshold (boundary gives RFO), but the power branches of
`sx1276_set_tx_config` never see it: line 522 shifts the already-bit-7
selection value left by 7 and assigns it to a `uint8_t`, truncating the bit
away, so the boosted-output branch is dead.  At channel 434 MHz (below the
threshold) and power 10 the code stores `power + 1 = 11` (RFO rule) in the low
nibble instead of the claimed `power - 2 = 8`, and at power 20 it never turns
the +20 dBm DAC on — for every possible initial `REG_PACONFIG` byte. -/
theorem C5_pa_boost_unreachable :
    sx1276_get_pa_select 434000000 = RF_PACONFIG_PASELECT_PABOOST
    ∧ sx1276_get_pa_select RF_MID_BAND_THRESH = RF_PACONFIG_PASELECT_RFO
    ∧ (434000000 : Nat) < RF_MID_BAND_THRESH
    ∧ (sx1276_set_tx_config_pa 0x4F 0x84 434000000 10).1 &&& 0x0F = 11
    ∧ (sx1276_set_tx_config_pa 0x4F 0x84 434000000 10).2 = 0x84
    ∧ ((List.range 256).all fun pc =>
        ((sx1276_set_tx_config_pa pc 0x84 434000000 20).2 == 0x84)) = true
    ∧ ((List.range 256).all fun pc =>
        (((sx1276_set_tx_config_pa pc 0x84 434000000 10).1 &&& 0x0F) == 11)) = true := by
  set_option maxRecDepth 4096 in decide

/-! ## C6 -/

/-- C6 counterexample: `setChannel` truncates instead of rounding.  At
`freqHz = 100` the exact quotient `100 / 61.03515625 = 1.6384` rounds to 2,
but the code's `(uint32_t)` cast truncates to 1, and 1 is what reaches the
frequency LSB register. -/
theorem C6_counterexample :
    sx1276_channel_ticks 100 = 1
    ∧ spec_round_ticks 100 = 2
    ∧ sx1276_set_channel regs0 100 REG_FRFLSB = 1
    ∧ sx1276_set_channel regs0 100 REG_FRFLSB ≠ spec_round_ticks 100 &&& 0xFF := by
  decide

/-- C6 amended: `setChannel` writes the 24-bit value `⌊freqHz / stepHz⌋`
(truncation, not rounding) as three bytes MSB-first to the frequency
registers, and the operating-mode register afterwards holds exactly the byte
it held before the call.  The last two conjuncts characterize
`sx1276_channel_ticks` as the exact floor of `freqHz·256/15625`. -/
theorem C6_set_channel_spec (regs : RegFile) (freq : Nat) :
    sx1276_set_channel regs freq REG_FRFMSB = (sx1276_channel_ticks freq >>> 16) &&& 0xFF
    ∧ sx1276_set_channel regs freq REG_FRFMID = (sx1276_channel_ticks freq >>> 8) &&& 0xFF
    ∧ sx1276_set_channel regs freq REG_FRFLSB = sx1276_channel_ticks freq &&& 0xFF
    ∧ sx1276_set_channel regs freq REG_OPMODE = regs REG_OPMODE
    ∧ sx1276_channel_ticks freq * 15625 ≤ freq * 256
    ∧ freq * 256 < (sx1276_channel_ticks freq + 1) * 15625 := by
  refine ⟨?_, ?_, ?_, ?_, ?_, ?_⟩
  · simp only [sx1276_set_channel, regWrite, REG_OPMODE, REG_FRFMSB, REG_FRFMID, REG_FRFLSB]
    norm_num
  · simp only [sx1276_set_channel, regWrite, REG_OPMODE, REG_FRFMSB, REG_FRFMID, REG_FRFLSB]
    norm_num
  · simp only [sx1276_set_channel, regWrite, REG_OPMODE, REG_FRFMSB, REG_FRFMID, REG_FRFLSB]
    norm_num
  · simp only [sx1276_set_channel, regWrite, REG_OPMODE, REG_FRFMSB, REG_FRFMID, REG_FRFLSB]
    norm_num
  · unfold sx1276_channel_ticks
    omega
  · unfold sx1276_channel_ticks
    omega

/-! ## C7 -/

/-- C7 counterexample: the `setRx` spurious-reception erratum handles NINE
bandwidth codes (0-8), not eight, and THREE of them (62.5, 125 and 250 kHz,
codes 6-8) apply no channel offset, not two. -/
theorem C7_counterexample :
    ((List.range 16).filter errataWritesTest2F).length = 9
    ∧ ((List.range 16).filter errataWritesTest2F).length ≠ 8
    ∧ ((List.range 16).filter (fun bw =>
        errataWritesTest2F bw && ((sx1276_set_rx_errata 0 0 bw).2).isNone)).length = 3
    ∧ ((List.range 16).filter (fun bw =>
        errataWritesTest2F bw && ((sx1276_set_rx_errata 0 0 bw).2).isNone)).length ≠ 2 := by
  decide

/-- C7 amended: for every stored bandwidth code below 9 (nine codes) the
erratum writes a band-specific `REG_LR_TEST2F` value (0x48 for the narrowest,
0x44 for codes 1-5, 0x40 for codes 6-8), the six narrowest codes additionally
retune via `setChannel` with the fixed offsets 7810/10420/15620/20830/31250/
41670 Hz, and the three widest of the nine apply no offset.  Stated for every
`REG_LR_DETECTOPTIMIZE` byte `d` and every channel `ch`. -/
theorem C7_errata_table (d ch : Nat) :
    (sx1276_set_rx_errata d ch 0).2 = some (ch + 7810)
    ∧ (sx1276_set_rx_errata d ch 1).2 = some (ch + 10420)
    ∧ (sx1276_set_rx_errata d ch 2).2 = some (ch + 15620)
    ∧ (sx1276_set_rx_errata d ch 3).2 = some (ch + 20830)
    ∧ (sx1276_set_rx_errata d ch 4).2 = some (ch + 31250)
    ∧ (sx1276_set_rx_errata d ch 5).2 = some (ch + 41670)
    ∧ (sx1276_set_rx_errata d ch 6).2 = none
    ∧ (sx1276_set_rx_errata d ch 7).2 = none
    ∧ (sx1276_set_rx_errata d ch 8).2 = none
    ∧ writesTo (sx1276_set_rx_errata d ch 0).1 REG_LR_TEST2F = [0x48]
    ∧ writesTo (sx1276_set_rx_errata d ch 1).1 REG_LR_TEST2F = [0x44]
    ∧ writesTo (sx1276_set_rx_errata d ch 2).1 REG_LR_TEST2F = [0x44]
    ∧ writesTo (sx1276_set_rx_errata d ch 3).1 REG_LR_TEST2F = [0x44]
    ∧ writesTo (sx1276_set_rx_errata d ch 4).1 REG_LR_TEST2F = [0x44]
    ∧ writesTo (sx1276_set_rx_errata d ch 5).1 REG_LR_TEST2F = [0x44]
    ∧ writesTo (sx1276_set_rx_errata d ch 6).1 REG_LR_TEST2F = [0x40]
    ∧ writesTo (sx1276_set_rx_errata d ch 7).1 REG_LR_TEST2F = [0x40]
    ∧ writesTo (sx1276_set_rx_errata d ch 8).1 REG_LR_TEST2F = [0x40]
    ∧ writesTo (sx1276_set_rx_errata d ch 9).1 REG_LR_TEST2F = [] := by
  refine ⟨rfl, rfl, rfl, rfl, rfl, rfl, rfl, rfl, rfl, ?_, ?_, ?_, ?_, ?_, ?_, ?_, ?_, ?_, ?_⟩ <;>
    simp [sx1276_set_rx_errata, writesTo, REG_LR_DETECTOPTIMIZE, REG_LR_TEST30, REG_LR_TEST2F]

/-! ## C9 -/

/-- C9: `setOperatingMode` is a no-op (no antenna-switch call, no register
write, no delay) exactly when the requested mode equals the mode bits read
from the register; otherwise it performs, in order, the antenna-switch calls
(low-power for Sleep, transmit side for Transmitter, receive side otherwise),
then writes the merged mode byte — which equals the requested mode, because
the code masks the previous value down to its mode bits first — and finally
delays 5 ms. -/
theorem C9_set_op_mode_spec (regs : RegFile) (mode : Nat) :
    ((sx1276_set_op_mode regs mode).2 = []
      ↔ mode = regs REG_OPMODE &&& (0xFF ^^^ RF_OPMODE_MASK))
    ∧ (mode = regs REG_OPMODE &&& (0xFF ^^^ RF_OPMODE_MASK) →
        (sx1276_set_op_mode regs mode).1 = regs)
    ∧ (mode ≠ regs REG_OPMODE &&& (0xFF ^^^ RF_OPMODE_MASK) →
        (sx1276_set_op_mode regs mode).2 =
          (if mode = RF_OPMODE_SLEEP then
            [DrvAction.antSwLowPower true]
           else
            [DrvAction.antSwLowPower false,
             DrvAction.antSw (if mode = RF_OPMODE_TRANSMITTER then 1 else 0)]) ++
          [DrvAction.regWriteAct REG_OPMODE mode, DrvAction.delay 5000]) := by
  have hmerge : ((regs REG_OPMODE &&& (0xFF ^^^ RF_OPMODE_MASK)) &&& RF_OPMODE_MASK) ||| mode
      = mode := by
    have h0 : (0xFF ^^^ RF_OPMODE_MASK) &&& RF_OPMODE_MASK = 0 := by decide
    rw [Nat.and_assoc, h0, Nat.and_zero, Nat.zero_or]
  by_cases h : mode = regs REG_OPMODE &&& (0xFF ^^^ RF_OPMODE_MASK)
  · refine ⟨?_, fun _ => ?_, fun hc => absurd h hc⟩
    · simp [sx1276_set_op_mode, h]
    · simp [sx1276_set_op_mode, h]
  · refine ⟨?_, fun hc => absurd hc h, fun _ => ?_⟩
    · simp only [sx1276_set_op_mode, if_pos h]
      constructor
      · intro habs
        simp at habs
      · intro hc
        exact absurd hc h
    · simp only [sx1276_set_op_mode, if_pos h, hmerge]
      by_cases hs : mode = RF_OPMODE_SLEEP
      · simp [hs]
      · by_cases ht : mode = RF_OPMODE_TRANSMITTER
        · simp [hs, ht]
        · simp [hs, ht]

/-- C9 witness: at register byte 0x09 (mode bits 1) and requested mode
Transmitter, the mode controller emits exactly the receive→transmit antenna
calls, the register write of the requested mode and the 5 ms delay. -/
theorem C9_witness :
    (sx1276_set_op_mode regs0 RF_OPMODE_TRANSMITTER).2 =
      [DrvAction.antSwLowPower false, DrvAction.antSw 1,
       DrvAction.regWriteAct REG_OPMODE RF_OPMODE_TRANSMITTER, DrvAction.delay 5000] := by
  have h := (C9_set_op_mode_spec regs0 RF_OPMODE_TRANSMITTER).2.2 (by decide)
  rw [h]
  rfl

/-! ## C10 -/

/-- C10: with a modem field that is neither FSK nor LoRa, `readRssi` returns
the sentinel -1 having performed zero register reads; and the LoRa branch can
legitimately produce -1 as a measurement (raw byte 163 below the mid-band
threshold gives -164 + 163 = -1), so the sentinel is indistinguishable from a
genuine -1 dBm reading. -/
theorem C10_read_rssi_default (modem channel fskRaw loraRaw : Nat)
    (h0 : modem ≠ MODEM_FSK) (h1 : modem ≠ MODEM_LORA) :
    sx1276_read_rssi modem channel fskRaw loraRaw = (-1, 0)
    ∧ (sx1276_read_rssi MODEM_LORA 434000000 0 163).1 = -1
    ∧ (sx1276_read_rssi MODEM_LORA 434000000 0 163).2 = 1 := by
  refine ⟨?_, by decide, by decide⟩
  unfold sx1276_read_rssi
  rw [if_neg (by simpa using h0), if_neg (by simpa using h1)]

/-- C10 witness: `C10_read_rssi_default` applied at the concrete out-of-range
modem value 2. -/
theorem C10_witness :
    sx1276_read_rssi 2 0 0 0 = (-1, 0)
    ∧ (sx1276_read_rssi MODEM_LORA 434000000 0 163).1 = -1
    ∧ (sx1276_read_rssi MODEM_LORA 434000000 0 163).2 = 1 :=
  C10_read_rssi_default 2 0 0 0 (by decide) (by decide)

/-! ## Shared bit lemmas -/

/-- After clearing only the RX-done bit, the CRC-error bit of the LoRa IRQ
flags is unchanged. -/
theorem crc_bit_after_rxdone_clear (f : Nat) :
    irqReadAfterClear f RFLR_IRQFLAGS_RXDONE &&& RFLR_IRQFLAGS_PAYLOADCRCERROR
      = f &&& RFLR_IRQFLAGS_PAYLOADCRCERROR := by
  have h : (0xFF ^^^ RFLR_IRQFLAGS_RXDONE) &&& RFLR_IRQFLAGS_PAYLOADCRCERROR
      = RFLR_IRQFLAGS_PAYLOADCRCERROR := by decide
  unfold irqReadAfterClear
  rw [Nat.and_assoc, h]

/-! ## C8 -/

/-- C8: in `RxRunning`, LoRa modem, with the CRC-error flag set at handler
entry, `sx1276_on_dio0` emits exactly one `RxError("CRC error")` event and no
other event, writes the CRC-error clear, cancels the `rxTimeout` timer, and
leaves the state at `RxRunning` when `rx_continuous` and at `Idle`
otherwise. -/
theorem C8_crc_error_handling (i : Dio0Input)
    (hs : i.state = RF_RX_RUNNING) (hm : i.modem = MODEM_LORA)
    (hcrc : i.irqFlags &&& RFLR_IRQFLAGS_PAYLOADCRCERROR = RFLR_IRQFLAGS_PAYLOADCRCERROR) :
    (sx1276_on_dio0 i).events = [Event.rxError "CRC error"]
    ∧ (sx1276_on_dio0 i).rxTimeoutCancelled = true
    ∧ (sx1276_on_dio0 i).irqWrites
        = [RFLR_IRQFLAGS_RXDONE, RFLR_IRQFLAGS_PAYLOADCRCERROR]
    ∧ (sx1276_on_dio0 i).state
        = (if i.rx_continuous then RF_RX_RUNNING else RF_IDLE) := by
  have hg : irqReadAfterClear i.irqFlags RFLR_IRQFLAGS_RXDONE &&&
      RFLR_IRQFLAGS_PAYLOADCRCERROR_MASK = RFLR_IRQFLAGS_PAYLOADCRCERROR := by
    unfold RFLR_IRQFLAGS_PAYLOADCRCERROR_MASK
    rw [crc_bit_after_rxdone_clear, hcrc]
  have hguard : ((irqReadAfterClear i.irqFlags RFLR_IRQFLAGS_RXDONE &&&
      RFLR_IRQFLAGS_PAYLOADCRCERROR_MASK) == RFLR_IRQFLAGS_PAYLOADCRCERROR) = true := by
    simp [hg]
  cases hb : i.rx_continuous <;>
    simp [sx1276_on_dio0, hs, hm, hguard, hb]

/-- A concrete `Dio0Input` with flags 0x60 (RX-done and CRC-error set) and
`rx_continuous = true`, used by the C8 witness. -/
def dio0InCrc : Dio0Input :=
  { state := RF_RX_RUNNING, modem := MODEM_LORA, rx_continuous := true,
    channel := 0, irqFlags := 0x60, snrRaw := 0, rssiRaw := 0, rxNbBytes := 0 }

/-- C8 witness: `C8_crc_error_handling` at the concrete input `dio0InCrc`. -/
theorem C8_witness :
    (sx1276_on_dio0 dio0InCrc).events = [Event.rxError "CRC error"]
    ∧ (sx1276_on_dio0 dio0InCrc).state = RF_RX_RUNNING := by
  have h := C8_crc_error_handling dio0InCrc rfl rfl (by decide)
  refine ⟨h.1, ?_⟩
  rw [h.2.2.2]
  decide

/-! ## C3 -/

/-- The RSSI decode formula exactly as claim C3 states it (spec words):
`bandOffset + raw + (raw >> 4) + (snr if snr < 0 else 0)` with
`bandOffset = -157` when the channel is greater than OR EQUAL to the mid-band
threshold, `-164` otherwise. -/
def spec_claim_rssi (channel raw : Nat) (snr : Int) : Int :=
  (if channel ≥ RF_MID_BAND_THRESH then RSSI_OFFSET_HF else RSSI_OFFSET_LF)
  + Int.ofNat raw + Int.ofNat (raw >>> 4) + (if snr < 0 then snr else 0)

/-- C3 counterexample: the claim's formula predicts -58 for `readRssi` with
raw byte 100 on a channel below the mid-band threshold, but the code's
`sx1276_read_rssi` adds only the band offset and the raw byte, giving -64:
the `raw >> 4` and SNR terms belong to the packet decode alone. -/
theorem C3_counterexample :
    spec_claim_rssi 434000000 100 1 = -58
    ∧ (sx1276_read_rssi MODEM_LORA 434000000 0 100).1 = -64
    ∧ (sx1276_read_rssi MODEM_LORA 434000000 0 100).1 ≠ spec_claim_rssi 434000000 100 1 := by
  decide

/-- C3 amended: on a receive completion (`sx1276_on_dio0`, RX running, LoRa,
CRC flag clear) the packet RSSI equals
`bandOffset + raw + (raw >> 4) + (snr if snr < 0)` where `bandOffset = -157`
iff the channel is STRICTLY greater than the mid-band threshold (else -164);
`readRssi` in LoRa mode returns only `bandOffset + raw` under the same strict
band rule; and raw SNR byte 0x04 decodes to snr = 1. -/
theorem C3_rssi_decode (i : Dio0Input) (channel raw : Nat)
    (hs : i.state = RF_RX_RUNNING) (hm : i.modem = MODEM_LORA)
    (hcrc : i.irqFlags &&& RFLR_IRQFLAGS_PAYLOADCRCERROR = 0) :
    (sx1276_on_dio0 i).events =
      [Event.rxDone (sx1276_decode_snr (i.snrRaw &&& 0xFF))
        ((if i.channel > RF_MID_BAND_THRESH then RSSI_OFFSET_HF else RSSI_OFFSET_LF)
          + Int.ofNat (i.rssiRaw &&& 0xFF)
          + Int.ofNat ((i.rssiRaw &&& 0xFF) >>> 4)
          + (if sx1276_decode_snr (i.snrRaw &&& 0xFF) < 0
             then sx1276_decode_snr (i.snrRaw &&& 0xFF) else 0))
        (i.rxNbBytes &&& 0xFF)]
    ∧ (sx1276_read_rssi MODEM_LORA channel 0 raw).1 =
        (if channel > RF_MID_BAND_THRESH then RSSI_OFFSET_HF else RSSI_OFFSET_LF)
          + Int.ofNat (raw &&& 0xFF)
    ∧ sx1276_decode_snr 0x04 = 1 := by
  have hg0 : irqReadAfterClear i.irqFlags RFLR_IRQFLAGS_RXDONE &&&
      RFLR_IRQFLAGS_PAYLOADCRCERROR_MASK = 0 := by
    unfold RFLR_IRQFLAGS_PAYLOADCRCERROR_MASK
    rw [crc_bit_after_rxdone_clear, hcrc]
  have hguard : ((irqReadAfterClear i.irqFlags RFLR_IRQFLAGS_RXDONE &&&
      RFLR_IRQFLAGS_PAYLOADCRCERROR_MASK) == RFLR_IRQFLAGS_PAYLOADCRCERROR) = false := by
    rw [hg0]
    decide
  refine ⟨?_, ?_, by decide⟩
  · simp only [sx1276_on_dio0, hs, hm, hguard]
    simp
    split_ifs <;> omega
  · unfold sx1276_read_rssi
    rw [if_neg (by decide), if_pos (by decide)]
    split_ifs <;> rfl

/-- A concrete receive completion (channel 434 MHz below the threshold, raw
SNR 0x04, raw RSSI 100, 7 payload bytes), used by the C3 witness. -/
def dio0InRx : Dio0Input :=
  { state := RF_RX_RUNNING, modem := MODEM_LORA, rx_continuous := false,
    channel := 434000000, irqFlags := 0x40, snrRaw := 4, rssiRaw := 100,
    rxNbBytes := 7 }

/-- C3 witness: `C3_rssi_decode` at the concrete receive `dio0InRx`: the
packet decode gives `-164 + 100 + 6 = -58` while `readRssi` with the same raw
byte gives -64. -/
theorem C3_witness :
    (sx1276_on_dio0 dio0InRx).events = [Event.rxDone 1 (-58) 7]
    ∧ (sx1276_read_rssi MODEM_LORA 434000000 0 100).1 = -64 := by
  have h := C3_rssi_decode dio0InRx 434000000 100 rfl rfl (by decide)
  refine ⟨?_, ?_⟩
  · rw [h.1]
    decide
  · rw [h.2.1]
    decide

/-! ## C4 -/

/-- The low-datarate-optimize flag the driver stores — computed on the
clamped datarate (sx1276.c lines 405-418) — matches the spec predicate
"(125 kHz ∧ datarate ∈ {11,12}) ∨ (250 kHz ∧ datarate = 12)" stated on the
clamp `max 6 (min 12 dr)`; bandwidth code 0/1/2 = 125/250/500 kHz. -/
theorem low_datarate_optimize_eq_spec (bw dr : Nat) (hbw : bw ≤ 2) :
    sx1276_lora_low_datarate_optimize (bw + 7) (sx1276_lora_clamp_datarate dr)
      = (if (bw = 0 ∧ (max 6 (min 12 dr) = 11 ∨ max 6 (min 12 dr) = 12))
            ∨ (bw = 1 ∧ max 6 (min 12 dr) = 12) then 1 else 0) := by
  have hc : sx1276_lora_clamp_datarate dr = max 6 (min 12 dr) := by
    unfold sx1276_lora_clamp_datarate
    split_ifs <;> omega
  rw [hc]
  obtain ⟨d, hd, h6, h12⟩ : ∃ d, max 6 (min 12 dr) = d ∧ 6 ≤ d ∧ d ≤ 12 :=
    ⟨max 6 (min 12 dr), rfl, by omega, by omega⟩
  rw [hd]
  interval_cases bw <;> interval_cases d <;> decide

/-- The datarate clamp of the configuration functions is idempotent, so the
register writes computed from a clamped datarate coincide with those computed
from the raw argument. -/
theorem sx1276_lora_clamp_datarate_idem (dr : Nat) :
    sx1276_lora_clamp_datarate (sx1276_lora_clamp_datarate dr)
      = sx1276_lora_clamp_datarate dr := by
  unfold sx1276_lora_clamp_datarate
  split_ifs <;> omega

/-- C4 counterexample: `setRxConfig` with datarate 13 stores 13 — the
UNCLAMPED argument — into the device state (sx1276.c line 394 runs before the
clamp at lines 405-410), while the claim requires the recorded value to be the
clamp 12. -/
theorem C4_counterexample :
    (sx1276_set_rx_config_lora lora0 regs0 2 13 1 8 5 false 16 true false 0
        false false).isSome = true
    ∧ ((sx1276_set_rx_config_lora lora0 regs0 2 13 1 8 5 false 16 true false 0
        false false).getD (lora0, [])).1.datarate = 13
    ∧ sx1276_lora_clamp_datarate 13 = 12
    ∧ ((sx1276_set_rx_config_lora lora0 regs0 2 13 1 8 5 false 16 true false 0
        false false).getD (lora0, [])).1.datarate ≠ sx1276_lora_clamp_datarate 13 := by
  decide

/-- C4 amended: for every bandwidth code ≤ 2 and every datarate, both
`setRxConfig` and `setTxConfig` store `lowDatarateOptimize` exactly per the
documented predicate evaluated on the datarate clamped to [6,12]; the register
writes are driven by the clamped value (the write list of every call equals
the write list of the same call with the clamped datarate); but the datarate
recorded in the device state is the UNCLAMPED argument, and `timeOnAir`
consumes that stored field: with the settings stored by the counterexample
call (datarate 13 at 500 kHz) a 20-byte packet computes to 577536 µs, whereas
the clamped datarate 12 would give 288768 µs. -/
theorem C4_store_then_clamp (s : LoraSettings) (regs : RegFile)
    (bw dr cr pl st : Nat) (ih : Bool) (pay : Nat) (con fh : Bool)
    (hp : Nat) (iq rc : Bool) (tmo : Nat) (hbw : bw ≤ 2) :
    (sx1276_set_rx_config_lora s regs bw dr cr pl st ih pay con fh hp iq rc).isSome
      = true
    ∧ ((sx1276_set_rx_config_lora s regs bw dr cr pl st ih pay con fh hp iq rc).getD
        (lora0, [])).1.datarate = dr
    ∧ ((sx1276_set_rx_config_lora s regs bw dr cr pl st ih pay con fh hp iq rc).getD
        (lora0, [])).1.low_datarate_optimize
      = (if (bw = 0 ∧ (max 6 (min 12 dr) = 11 ∨ max 6 (min 12 dr) = 12))
            ∨ (bw = 1 ∧ max 6 (min 12 dr) = 12) then 1 else 0)
    ∧ (sx1276_set_tx_config_lora s regs bw dr cr pl ih con fh hp iq tmo).isSome
      = true
    ∧ ((sx1276_set_tx_config_lora s regs bw dr cr pl ih con fh hp iq tmo).getD
        (lora0, [])).1.datarate = dr
    ∧ ((sx1276_set_tx_config_lora s regs bw dr cr pl ih con fh hp iq tmo).getD
        (lora0, [])).1.low_datarate_optimize
      = (if (bw = 0 ∧ (max 6 (min 12 dr) = 11 ∨ max 6 (min 12 dr) = 12))
            ∨ (bw = 1 ∧ max 6 (min 12 dr) = 12) then 1 else 0)
    ∧ ((sx1276_set_rx_config_lora s regs bw dr cr pl st ih pay con fh hp iq rc).getD
        (lora0, [])).2
      = ((sx1276_set_rx_config_lora s regs bw (sx1276_lora_clamp_datarate dr) cr pl st
          ih pay con fh hp iq rc).getD (lora0, [])).2
    ∧ ((sx1276_set_tx_config_lora s regs bw dr cr pl ih con fh hp iq tmo).getD
        (lora0, [])).2
      = ((sx1276_set_tx_config_lora s regs bw (sx1276_lora_clamp_datarate dr) cr pl
          ih con fh hp iq tmo).getD (lora0, [])).2
    ∧ (writesTo ((sx1276_set_rx_config_lora lora0 regs0 2 13 1 8 5 false 16 true false 0
        false false).getD (lora0, [])).2 REG_LR_MODEMCONFIG2).headD 0 >>> 4
      = sx1276_lora_clamp_datarate 13
    ∧ sx1276_get_time_on_air_lora c4Settings 20 = 577536
    ∧ sx1276_get_time_on_air_lora { c4Settings with datarate := 12 } 20 = 288768
    ∧ sx1276_get_time_on_air_lora c4Settings 20
      ≠ sx1276_get_time_on_air_lora { c4Settings with datarate := 12 } 20 := by
  have hno : ¬ (bw > 2) := by omega
  have hc4 : c4Settings =
      { bandwidth := 9, datarate := 13, coderate := 1, preamble_len := 8,
        implicit_header := false, payload_len := 16, crc_on := true,
        freq_hop_on := false, hop_period := 0, iq_inverted := false,
        low_datarate_optimize := 0, rx_continuous := false, tx_timeout := 0 } := by
    decide
  have hair13 : sx1276_get_time_on_air_lora c4Settings 20 = 577536 := by
    rw [hc4]
    simp only [sx1276_get_time_on_air_lora]
    norm_num
    rw [show (⌈(33:ℚ)/13⌉ : Int) = 3 by norm_num [Int.ceil_eq_iff]]
    norm_num
    rfl
  have hair12 : sx1276_get_time_on_air_lora { c4Settings with datarate := 12 } 20
      = 288768 := by
    rw [hc4]
    simp only [sx1276_get_time_on_air_lora]
    norm_num
    rw [show (⌈(17:ℚ)/6⌉ : Int) = 3 by norm_num [Int.ceil_eq_iff]]
    norm_num
    rfl
  refine ⟨?_, ?_, ?_, ?_, ?_, ?_, ?_, ?_, by decide, hair13, hair12, ?_⟩
  · unfold sx1276_set_rx_config_lora
    rw [if_neg hno]
    rfl
  · unfold sx1276_set_rx_config_lora
    rw [if_neg hno]
    rfl
  · unfold sx1276_set_rx_config_lora
    rw [if_neg hno]
    exact low_datarate_optimize_eq_spec bw dr hbw
  · unfold sx1276_set_tx_config_lora
    rw [if_neg hno]
    rfl
  · unfold sx1276_set_tx_config_lora
    rw [if_neg hno]
    rfl
  · unfold sx1276_set_tx_config_lora
    rw [if_neg hno]
    exact low_datarate_optimize_eq_spec bw dr hbw
  · simp only [sx1276_set_rx_config_lora, if_neg hno, Option.getD_some]
    rw [sx1276_lora_clamp_datarate_idem]
  · simp only [sx1276_set_tx_config_lora, if_neg hno, Option.getD_some]
    rw [sx1276_lora_clamp_datarate_idem]
  · rw [hair13, hair12]
    decide

/-- C4 witness: `C4_store_then_clamp` at bandwidth code 0 (125 kHz) and
datarate 11: the stored flag is 1 and the stored datarate is the argument. -/
theorem C4_witness :
    ((sx1276_set_rx_config_lora lora0 regs0 0 11 1 8 5 false 16 true false 0
        false false).getD (lora0, [])).1.low_datarate_optimize = 1
    ∧ ((sx1276_set_tx_config_lora lora0 regs0 0 11 1 8 false true false 0
        false 0).getD (lora0, [])).1.datarate = 11 := by
  have h := C4_store_then_clamp lora0 regs0 0 11 1 8 5 false 16 true false 0 false
    false 0 (by decide)
  refine ⟨?_, h.2.2.2.2.1⟩
  rw [h.2.2.1]
  decide

/-! ## Extra witnesses for the universally quantified theorems -/

/-- C2 witness: `C2_cad_done_always_false` at the concrete flag byte 0x05
(CAD-detected and CAD-done both set): the handler still reports
`CadDone(false)`. -/
theorem C2_witness :
    (sx1276_on_dio3 MODEM_LORA 0x05).1 = [Event.cadDone false] :=
  (C2_cad_done_always_false 0x05).1

/-- C6 witness: `C6_set_channel_spec` at the all-zero register file and
868 MHz — the tick value 14221312 = 0xD90000 lands MSB-first in the three
frequency registers and the mode register is restored. -/
theorem C6_witness :
    sx1276_set_channel regs0 868000000 REG_FRFMSB = 0xD9
    ∧ sx1276_set_channel regs0 868000000 REG_FRFMID = 0x00
    ∧ sx1276_set_channel regs0 868000000 REG_FRFLSB = 0x00
    ∧ sx1276_set_channel regs0 868000000 REG_OPMODE = regs0 REG_OPMODE := by
  have h := C6_set_channel_spec regs0 868000000
  refine ⟨?_, ?_, ?_, h.2.2.2.1⟩
  · rw [h.1]
    decide
  · rw [h.2.1]
    decide
  · rw [h.2.2.1]
    decide

/-- C7 witness: `C7_errata_table` at detect-optimize byte 3 and channel
434 MHz: bandwidth code 0 retunes to 434000000 + 7810 Hz, code 8 does not
retune. -/
theorem C7_witness :
    (sx1276_set_rx_errata 3 434000000 0).2 = some 434007810
    ∧ (sx1276_set_rx_errata 3 434000000 8).2 = none := by
  have h := C7_errata_table 3 434000000
  exact ⟨h.1, h.2.2.2.2.2.2.2.2.1⟩
